import Mathlib

/-!
Verification of the AT-1000 market-data core against its specification.

Each Python worker/router relevant to the claims is shallowly embedded:
pure state-transition functions over exact arithmetic (`ℚ` in place of
Python floats, so the algebraic and control-flow structure is preserved
exactly; float rounding is not the subject of any claim), Python `dict`
as `Finmap`, Python `None` as `Option`, raised exceptions as `Except`.
-/

namespace AT1000

namespace BookTop

/-! ## Embedding of src/workers/market_data/binance_book_top.py -/

/-- One side of the order book: a price → quantity map (Python `dict`). -/
abbrev Side : Type := Finmap (fun _ : ℚ => ℚ)

/-- `OrderBook` state: bids, asks, last applied update id. -/
structure OrderBook where
  bids : Side
  asks : Side
  last_update_id : Nat

/-- A depth diff message: `b`/`a` are lists of (price, qty) levels,
`u` the optional update id (`data.get('u', ...)`). -/
structure DiffData where
  b : List (ℚ × ℚ)
  a : List (ℚ × ℚ)
  u : Option Nat

/-- Apply one (price, qty) level to a side: qty 0 removes the level,
otherwise upserts it (body of the per-level loop in `OrderBook.update`). -/
def applyLevel (m : Side) (lv : ℚ × ℚ) : Side :=
  if lv.2 = 0 then m.erase lv.1 else m.insert lv.1 lv.2

/-- Apply a list of levels in order (the `for` loop in `OrderBook.update`). -/
def applyLevels (m : Side) (levels : List (ℚ × ℚ)) : Side :=
  levels.foldl applyLevel m

/-- `OrderBook.update`: apply bid levels, ask levels, then
`last_update_id = data.get('u', self.last_update_id)`. -/
def OrderBook.update (ob : OrderBook) (data : DiffData) : OrderBook :=
  { bids := applyLevels ob.bids data.b
    asks := applyLevels ob.asks data.a
    last_update_id := data.u.getD ob.last_update_id }

/-- `OrderBook.get_tob`: `None` when either side is empty, else
(max bid price, its qty) and (min ask price, its qty). -/
def OrderBook.get_tob (ob : OrderBook) : Option ((ℚ × ℚ) × (ℚ × ℚ)) :=
  match ob.bids.keys.max, ob.asks.keys.min with
  | some bb, some ba =>
      some ((bb, (ob.bids.lookup bb).getD 0), (ba, (ob.asks.lookup ba).getD 0))
  | _, _ => none

def DEPTH_BPS_THRESHOLD : ℚ := 10

/-- `OrderBook.get_depth_10bps`: summed notional within 10 bps of mid. -/
def OrderBook.get_depth_10bps (ob : OrderBook) (mid_px : ℚ) : ℚ × ℚ :=
  let threshold_bps := DEPTH_BPS_THRESHOLD / 10000
  let bid_threshold := mid_px * (1 - threshold_bps)
  let bid_depth_usd :=
    ((ob.bids.entries.filter (fun e => bid_threshold ≤ e.1)).map
      (fun e => e.1 * e.2)).sum
  let ask_threshold := mid_px * (1 + threshold_bps)
  let ask_depth_usd :=
    ((ob.asks.entries.filter (fun e => e.1 ≤ ask_threshold)).map
      (fun e => e.1 * e.2)).sum
  (bid_depth_usd, ask_depth_usd)

/-- `BookSnapshot` (the `timestamp` is taken from the wall clock in the
source; here it is an explicit argument of `get_snapshot`). -/
structure BookSnapshot where
  symbol : String
  timestamp : Nat
  bid_px : ℚ
  bid_qty : ℚ
  ask_px : ℚ
  ask_qty : ℚ
  mid_px : ℚ
  spread_bps : ℚ
  depth_10bps_bid_usd : ℚ
  depth_10bps_ask_usd : ℚ
  deriving DecidableEq

def SYMBOL : String := "SOLUSDT"

/-- `OrderBook.get_snapshot`: `None` when `get_tob` has no sides, else the
snapshot with mid, spread in bps and 10 bps depth. -/
def OrderBook.get_snapshot (ob : OrderBook) (ts : Nat) : Option BookSnapshot :=
  match ob.get_tob with
  | none => none
  | some (bid, ask) =>
      let mid_px := (bid.1 + ask.1) / 2
      let spread_bps := ((ask.1 - bid.1) / mid_px) * 10000
      let d := ob.get_depth_10bps mid_px
      some { symbol := SYMBOL
             timestamp := ts
             bid_px := bid.1
             bid_qty := bid.2
             ask_px := ask.1
             ask_qty := ask.2
             mid_px := mid_px
             spread_bps := spread_bps
             depth_10bps_bid_usd := d.1
             depth_10bps_ask_usd := d.2 }

/-! ### Per-key semantics of diff application -/

/-- Effect of one level on the value stored at a fixed price `k`. -/
def applyLevelKey (k : ℚ) (v : Option ℚ) (lv : ℚ × ℚ) : Option ℚ :=
  if lv.1 = k then (if lv.2 = 0 then none else some lv.2) else v

lemma lookup_applyLevel (m : Side) (lv : ℚ × ℚ) (k : ℚ) :
    (applyLevel m lv).lookup k = applyLevelKey k (m.lookup k) lv := by
  unfold applyLevel applyLevelKey
  by_cases hq : lv.2 = 0
  · rw [if_pos hq]
    by_cases hk : lv.1 = k
    · subst hk
      rw [if_pos rfl, if_pos hq, Finmap.lookup_erase]
    · rw [if_neg hk, Finmap.lookup_erase_ne (Ne.symm hk)]
  · rw [if_neg hq]
    by_cases hk : lv.1 = k
    · subst hk
      rw [if_pos rfl, if_neg hq, Finmap.lookup_insert]
    · rw [if_neg hk, Finmap.lookup_insert_of_ne _ (Ne.symm hk)]

lemma lookup_applyLevels (l : List (ℚ × ℚ)) (m : Side) (k : ℚ) :
    (applyLevels m l).lookup k = l.foldl (applyLevelKey k) (m.lookup k) := by
  induction l generalizing m with
  | nil => rfl
  | cons lv t ih =>
    show (applyLevels (applyLevel m lv) t).lookup k = _
    rw [List.foldl_cons, ← lookup_applyLevel m lv k]
    exact ih (applyLevel m lv)

lemma foldl_key_untouched (l : List (ℚ × ℚ)) (k : ℚ) (v : Option ℚ)
    (h : ∀ lv ∈ l, lv.1 ≠ k) : l.foldl (applyLevelKey k) v = v := by
  induction l generalizing v with
  | nil => rfl
  | cons lv t ih =>
    rw [List.foldl_cons]
    have hv : applyLevelKey k v lv = v := if_neg (h lv (List.mem_cons_self lv t))
    rw [hv]
    exact ih v (fun x hx => h x (List.mem_cons_of_mem lv hx))

lemma foldl_key_touched (l : List (ℚ × ℚ)) (k : ℚ)
    (h : ∃ lv ∈ l, lv.1 = k) (v w : Option ℚ) :
    l.foldl (applyLevelKey k) v = l.foldl (applyLevelKey k) w := by
  induction l with
  | nil => simp at h
  | cons lv t ih =>
    rw [List.foldl_cons, List.foldl_cons]
    by_cases hk : lv.1 = k
    · have hvw : applyLevelKey k v lv = applyLevelKey k w lv := by
        unfold applyLevelKey
        rw [if_pos hk, if_pos hk]
      rw [hvw]
    · obtain ⟨lv', hmem, hk'⟩ := h
      rcases List.mem_cons.mp hmem with heq | hmem'
      · exact absurd (heq ▸ hk') hk
      · have hvw : applyLevelKey k v lv = v := if_neg hk
        have hww : applyLevelKey k w lv = w := if_neg hk
        rw [hvw, hww]
        exact ih ⟨lv', hmem', hk'⟩

lemma foldl_key_idem (l : List (ℚ × ℚ)) (k : ℚ) (v : Option ℚ) :
    l.foldl (applyLevelKey k) (l.foldl (applyLevelKey k) v) =
      l.foldl (applyLevelKey k) v := by
  by_cases h : ∃ lv ∈ l, lv.1 = k
  · exact foldl_key_touched l k h _ v
  · push_neg at h
    rw [foldl_key_untouched l k _ h]

lemma applyLevels_idem (m : Side) (l : List (ℚ × ℚ)) :
    applyLevels (applyLevels m l) l = applyLevels m l := by
  apply Finmap.ext_lookup
  intro k
  rw [lookup_applyLevels, lookup_applyLevels]
  exact foldl_key_idem l k (m.lookup k)

lemma get_tob_none_of_empty (ob : OrderBook) (h : ob.bids = ∅ ∨ ob.asks = ∅) :
    ob.get_tob = none := by
  unfold OrderBook.get_tob
  rcases h with h | h
  · have hmax : ob.bids.keys.max = (⊥ : WithBot ℚ) := by
      rw [h, Finmap.keys_empty]
      exact Finset.max_empty
    rw [hmax]
  · have hmin : ob.asks.keys.min = (⊤ : WithTop ℚ) := by
      rw [h, Finmap.keys_empty]
      exact Finset.min_empty
    rw [hmin]
    cases ob.bids.keys.max <;> rfl

lemma get_tob_mem (ob : OrderBook) (bid ask : ℚ × ℚ)
    (h : ob.get_tob = some (bid, ask)) :
    bid.1 ∈ ob.bids.keys ∧ ask.1 ∈ ob.asks.keys := by
  unfold OrderBook.get_tob at h
  cases hbb : ob.bids.keys.max with
  | bot => rw [hbb] at h; exact Option.noConfusion h
  | coe bb =>
    cases hba : ob.asks.keys.min with
    | top => rw [hbb, hba] at h; exact Option.noConfusion h
    | coe ba =>
      rw [hbb, hba] at h
      simp only [Option.some.injEq, Prod.mk.injEq] at h
      obtain ⟨hb, ha⟩ := h
      exact ⟨by rw [← hb]; exact Finset.mem_of_max hbb,
             by rw [← ha]; exact Finset.mem_of_min hba⟩

lemma get_snapshot_tob (ob : OrderBook) (ts : Nat) (s : BookSnapshot)
    (h : ob.get_snapshot ts = some s) :
    ∃ bid ask, ob.get_tob = some (bid, ask) ∧ s.bid_px = bid.1 ∧
      s.ask_px = ask.1 := by
  unfold OrderBook.get_snapshot at h
  cases htob : ob.get_tob with
  | none => rw [htob] at h; exact absurd h (by simp)
  | some pr =>
    obtain ⟨bid, ask⟩ := pr
    rw [htob] at h
    simp only [Option.some.injEq] at h
    exact ⟨bid, ask, rfl, by rw [← h], by rw [← h]⟩

/-! ### Claims C2 and C10 -/

/-- A concrete crossed book: one bid at price 10, one ask at price 5. -/
def crossedBook : OrderBook :=
  { bids := (∅ : Side).insert 10 1
    asks := (∅ : Side).insert 5 1
    last_update_id := 0 }

/-- C2 counterexample: on the crossed book (bid 10, ask 5) `get_snapshot`
does emit a snapshot, and its best bid is not strictly below its best ask —
refuting the claim that every emitted snapshot has best bid < best ask. -/
theorem c2_counterexample :
    (crossedBook.get_snapshot 0).map (fun s => decide (s.bid_px < s.ask_px)) =
      some false := by
  decide

/-- C2 (amended): `get_snapshot` returns no snapshot whenever either side of
the book is empty; and every snapshot it does return takes its best bid from
the bid map and its best ask from the ask map, so best bid < best ask holds
whenever the book is uncrossed (every bid price below every ask price) — the
code does not itself enforce un-crossedness on the stored book. -/
theorem c2_snapshot_sides :
    (∀ (ob : OrderBook) (ts : Nat), ob.bids = ∅ ∨ ob.asks = ∅ →
        ob.get_snapshot ts = none) ∧
    (∀ (ob : OrderBook) (ts : Nat) (s : BookSnapshot),
        ob.get_snapshot ts = some s →
        (∀ p ∈ ob.bids.keys, ∀ q ∈ ob.asks.keys, p < q) →
        s.bid_px < s.ask_px) := by
  constructor
  · intro ob ts h
    unfold OrderBook.get_snapshot
    rw [get_tob_none_of_empty ob h]
  · intro ob ts s hs hcross
    obtain ⟨bid, ask, htob, hb, ha⟩ := get_snapshot_tob ob ts s hs
    obtain ⟨hbm, ham⟩ := get_tob_mem ob bid ask htob
    rw [hb, ha]
    exact hcross bid.1 hbm ask.1 ham

/-- A concrete uncrossed book: one bid at price 10, one ask at price 11. -/
def uncrossedBook : OrderBook :=
  { bids := (∅ : Side).insert 10 1
    asks := (∅ : Side).insert 11 1
    last_update_id := 0 }

/-- An all-bids-empty book. -/
def emptyBidsBook : OrderBook :=
  { bids := (∅ : Side), asks := (∅ : Side).insert 11 1, last_update_id := 0 }

/-- Witness for `c2_snapshot_sides`: the empty-bids book yields no snapshot,
and on the concrete uncrossed book the emitted snapshot has bid 10 < ask 11. -/
theorem c2_snapshot_sides_witness :
    emptyBidsBook.get_snapshot 0 = none ∧
    (uncrossedBook.get_snapshot 0).map
      (fun s => decide (s.bid_px < s.ask_px)) = some true := by
  refine ⟨c2_snapshot_sides.1 emptyBidsBook 0 (Or.inl rfl), ?_⟩
  have hsome : (uncrossedBook.get_snapshot 0).isSome = true := by decide
  have hs : uncrossedBook.get_snapshot 0 =
      some ((uncrossedBook.get_snapshot 0).get hsome) :=
    (Option.some_get hsome).symm
  have hlt := c2_snapshot_sides.2 uncrossedBook 0 _ hs (by decide)
  rw [hs, Option.map_some']
  exact congrArg some (decide_eq_true hlt)

/-- C10: applying the same order-book diff message twice in succession via
`OrderBook.update` leaves the book state (bid map, ask map, last update id)
identical to applying it once — diff quantities are absolute
upserts/removals, not deltas, so `update` is idempotent for every diff and
every starting book state. -/
theorem c10_update_idempotent (ob : OrderBook) (d : DiffData) :
    (ob.update d).update d = ob.update d := by
  unfold OrderBook.update
  cases d.u <;> simp [applyLevels_idem]

end BookTop

namespace TradesCVD

/-! ## Embedding of src/workers/market_data/binance_trades_cvd.py -/

/-- Aggregated trade (fields used by the aggregator; `timestamp` in ms). -/
structure Trade where
  price : ℚ
  quantity : ℚ
  timestamp : Nat
  is_buyer_maker : Bool
  deriving DecidableEq

/-- One-minute OHLCV bar with CVD and VWAP. -/
structure Bar where
  symbol : String
  timestamp : Nat
  open_px : ℚ
  high : ℚ
  low : ℚ
  close : ℚ
  volume : ℚ
  buy_volume : ℚ
  sell_volume : ℚ
  cvd : ℚ
  vwap : ℚ
  trade_count : Nat
  deriving DecidableEq

/-- `BarAggregator` mutable state (the Python field `open` is `open_px`
here; `open` is a Lean keyword). -/
structure BarAggregator where
  symbol : String
  open_px : Option ℚ
  high : Option ℚ
  low : Option ℚ
  close : Option ℚ
  volume : ℚ
  buy_volume : ℚ
  sell_volume : ℚ
  value_sum : ℚ
  trade_count : Nat
  current_minute : Option Nat
  deriving DecidableEq

/-- `BarAggregator.reset`. -/
def BarAggregator.reset (a : BarAggregator) : BarAggregator :=
  { symbol := a.symbol, open_px := none, high := none, low := none,
    close := none, volume := 0, buy_volume := 0, sell_volume := 0,
    value_sum := 0, trade_count := 0, current_minute := none }

/-- Fresh aggregator (`BarAggregator(symbol)` calls `reset`). -/
def BarAggregator.mk0 (symbol : String) : BarAggregator :=
  BarAggregator.reset
    { symbol := symbol, open_px := none, high := none, low := none,
      close := none, volume := 0, buy_volume := 0, sell_volume := 0,
      value_sum := 0, trade_count := 0, current_minute := none }

/-- Python `x or price` on an optional float: `None` and `0.0` are falsy. -/
def orFalsy (o : Option ℚ) (d : ℚ) : ℚ :=
  match o with
  | none => d
  | some x => if x = 0 then d else x

/-- `BarAggregator.add_trade`: update OHLC, volumes, VWAP sum, count.
The taker side comes from `is_buyer_maker` (buyer maker = taker sold). -/
def BarAggregator.add_trade (a : BarAggregator) (t : Trade) : BarAggregator :=
  let price := t.price
  let qty := t.quantity
  { a with
    open_px := some (match a.open_px with | none => price | some o => o)
    high := some (max (orFalsy a.high price) price)
    low := some (min (orFalsy a.low price) price)
    close := some price
    volume := a.volume + qty
    sell_volume := if t.is_buyer_maker then a.sell_volume + qty
                   else a.sell_volume
    buy_volume := if t.is_buyer_maker then a.buy_volume
                  else a.buy_volume + qty
    value_sum := a.value_sum + price * qty
    trade_count := a.trade_count + 1 }

/-- `BarAggregator.finalize_bar`: `None` (and no reset) when no trade was
seen; otherwise the sealed bar plus the reset aggregator. VWAP falls back
to close when volume is 0. -/
def BarAggregator.finalize_bar (a : BarAggregator) (timestamp : Nat) :
    Option Bar × BarAggregator :=
  match a.open_px with
  | none => (none, a)
  | some o =>
    let cvd := a.buy_volume - a.sell_volume
    let vwap := if a.volume > 0 then a.value_sum / a.volume
                else a.close.getD 0
    (some { symbol := a.symbol
            timestamp := timestamp
            open_px := o
            high := a.high.getD 0
            low := a.low.getD 0
            close := a.close.getD 0
            volume := a.volume
            buy_volume := a.buy_volume
            sell_volume := a.sell_volume
            cvd := cvd
            vwap := vwap
            trade_count := a.trade_count }, a.reset)

/-- Minute floor of a millisecond timestamp
(`trade_time.replace(second=0, microsecond=0)` as ms). -/
def floorMinute (ts_ms : Nat) : Nat := (ts_ms / 60000) * 60000

/-- `BinanceTradesCVD.process_trade` as a pure state transition: returns
the updated aggregator and the bar published in this step (if any).
If a new minute started, the previous bar is finalized and emitted and the
window advances; in every case the incoming trade is then added to the
(now) current bar. -/
def processTrade (agg : BarAggregator) (t : Trade) :
    BarAggregator × Option Bar :=
  let minute_ts := floorMinute t.timestamp
  match agg.current_minute with
  | none =>
    let agg1 := { agg with current_minute := some minute_ts }
    (agg1.add_trade t, none)
  | some cm =>
    if minute_ts > cm then
      let fin := agg.finalize_bar cm
      let agg1 := { fin.2 with current_minute := some minute_ts }
      (agg1.add_trade t, fin.1)
    else
      (agg.add_trade t, none)

/-! ### Claim C1 -/

/-- Aggregator state after a trade at t=0ms (price 100) and a trade at
t=60000ms (price 101): the bar for window 0 is sealed, the open bar holds
exactly the second trade, and `current_minute = 60000`. -/
def aggAfterTwo : BarAggregator :=
  (processTrade
    (processTrade (BarAggregator.mk0 "SOLUSDT")
      { price := 100, quantity := 1, timestamp := 0,
        is_buyer_maker := false }).1
    { price := 101, quantity := 1, timestamp := 60000,
      is_buyer_maker := false }).1

/-- A late trade: timestamp 1000ms, so its minute floor 0 is below the
current window start 60000. -/
def lateTrade : Trade :=
  { price := 99, quantity := 2, timestamp := 1000, is_buyer_maker := true }

/-- C1 counterexample: after the window has advanced to 60000, a trade
whose minute floor (0) is below the current window start is NOT ignored:
`process_trade` adds it to the open bar, raising its trade count from 1 to
2, its volume from 1 to 3 and moving its close to the late price — refuting
the claim that such trades leave the open bar untouched. -/
theorem c1_counterexample :
    floorMinute lateTrade.timestamp < 60000 ∧
    aggAfterTwo.current_minute = some 60000 ∧
    aggAfterTwo.trade_count = 1 ∧
    (processTrade aggAfterTwo lateTrade).1.trade_count = 2 ∧
    (processTrade aggAfterTwo lateTrade).1.close = some 99 := by
  decide

/-- C1 (amended): for a trade whose minute floor is less than or equal to
the current window start, `process_trade` emits no bar (so no sealed bar
is reopened or mutated) and does not advance the window, but the trade IS
added to the currently open bar via `add_trade`, affecting its OHLC,
volume, CVD, VWAP and trade count. -/
theorem c1_late_trade_added (agg : BarAggregator) (t : Trade) (cm : Nat)
    (hcm : agg.current_minute = some cm)
    (hle : floorMinute t.timestamp ≤ cm) :
    processTrade agg t = (agg.add_trade t, none) := by
  unfold processTrade
  rw [hcm]
  exact if_neg (not_lt.mpr hle)

/-- Witness for `c1_late_trade_added`: applied to the concrete state
`aggAfterTwo` (current window 60000) and the late trade with floor 0. -/
theorem c1_late_trade_added_witness :
    processTrade aggAfterTwo lateTrade =
      (aggAfterTwo.add_trade lateTrade, none) :=
  c1_late_trade_added aggAfterTwo lateTrade 60000 (by decide) (by decide)

end TradesCVD

namespace Guards

/-! ## Embedding of src/backend/routers/guards.py

`get_guards` fetches book, funding and a 5-minute liquidation count, applies
the thresholds, and on any exception escaping the body returns the fixed
fallback response.  The fetched values are passed in explicitly: `Except`
models the outer try/except, `Option` a stream with no data.  Python float
formatting inside the reason strings (`:.2f` etc.) is abstracted by
`toString`; the response-level `round(_, 2)` is likewise left off the ℚ
metric fields — neither affects which reasons are appended, their order, or
any claimed field. -/

/-- One entry of a Redis stream (id and field map), as read by `xrange`. -/
structure StreamEntry where
  id : String
  fields : List (String × String)

/-- `RedisStreamsReader.count_recent`: `len` of the in-window entries, and
0 when the read raises — the exception is swallowed inside the reader. -/
def count_recent (result : Except String (List StreamEntry)) : Nat :=
  match result with
  | .error _ => 0
  | .ok entries => entries.length

/-- Latest book snapshot fields used by the guards. -/
structure BookData where
  spread_bps : ℚ
  depth_10bps_bid_usd : ℚ
  depth_10bps_ask_usd : ℚ

/-- Latest funding snapshot fields used by the guards. -/
structure FundingData where
  funding_apr : ℚ
  oi_notional : ℚ

/-- Per-metric provenance block of the response. -/
structure DataSources where
  book : String
  funding : String
  liquidations : String
  deriving DecidableEq

/-- The JSON object returned by `get_guards`. -/
structure GuardResponse where
  ts : Nat
  spread_bps : ℚ
  depth_bid_usd : ℚ
  depth_ask_usd : ℚ
  funding_apr : ℚ
  basis_bps : ℚ
  oi_notional : ℚ
  liq_events_5m : Nat
  status : String
  warnings : List String
  data_sources : DataSources
  error : Option String

def spreadWarning (spread_bps : ℚ) : String :=
  "Spread: " ++ toString spread_bps ++ "bps (>10bps)"

def depthWarning (depth_bid_usd depth_ask_usd : ℚ) : String :=
  "Depth: $" ++ toString (min depth_bid_usd depth_ask_usd) ++ " (<$50k)"

def fundingWarning (funding_apr : ℚ) : String :=
  "Funding APR: " ++ toString funding_apr ++ "% (|x|>300%)"

def liqWarning (liq_events_5m : Nat) : String :=
  "Liquidations: " ++ toString liq_events_5m ++ " in 5min (>10)"

/-- The threshold cascade of `get_guards`: status starts "passing", each
triggered guard appends its reason and overwrites the status ("warning"
for spread/depth/funding, "breach" for liquidations, in source order). -/
def evalGuards (book : Option BookData) (funding : Option FundingData)
    (liq_count : Nat) : String × List String :=
  let st0 := "passing"
  let ws0 : List String := []
  let p1 :=
    match book with
    | none => (st0, ws0)
    | some b =>
      let pa := if b.spread_bps > 10
                then ("warning", ws0 ++ [spreadWarning b.spread_bps])
                else (st0, ws0)
      if b.depth_10bps_bid_usd < 50000 ∨ b.depth_10bps_ask_usd < 50000
      then ("warning",
            pa.2 ++ [depthWarning b.depth_10bps_bid_usd b.depth_10bps_ask_usd])
      else pa
  let p2 :=
    match funding with
    | none => p1
    | some f =>
      if |f.funding_apr| > 300
      then ("warning", p1.2 ++ [fundingWarning f.funding_apr])
      else p1
  if liq_count > 10
  then ("breach", p2.2 ++ [liqWarning liq_count])
  else p2

/-- `get_guards`.  The `.ok` case is the body (metrics default to 0 when a
stream had no data); the `.error` case is the `except` fallback returning
the fixed mock snapshot. -/
def get_guards (ts : Nat)
    (fetched : Except String (Option BookData × Option FundingData × Nat)) :
    GuardResponse :=
  match fetched with
  | .error e =>
    { ts := ts
      spread_bps := 6.5
      depth_bid_usd := 125000
      depth_ask_usd := 130000
      funding_apr := 112
      basis_bps := 4
      oi_notional := 45000000
      liq_events_5m := 0
      status := "passing"
      warnings := []
      data_sources :=
        { book := "fallback", funding := "fallback",
          liquidations := "fallback" }
      error := some e }
  | .ok (book, funding, liq_count) =>
    let sw := evalGuards book funding liq_count
    { ts := ts
      spread_bps := (book.map BookData.spread_bps).getD 0
      depth_bid_usd := (book.map BookData.depth_10bps_bid_usd).getD 0
      depth_ask_usd := (book.map BookData.depth_10bps_ask_usd).getD 0
      funding_apr := (funding.map FundingData.funding_apr).getD 0
      basis_bps := 0
      oi_notional := (funding.map FundingData.oi_notional).getD 0
      liq_events_5m := liq_count
      status := sw.1
      warnings := sw.2
      data_sources :=
        { book := if book.isSome then "live" else "unavailable"
          funding := if funding.isSome then "live" else "unavailable"
          liquidations := if liq_count ≥ 0 then "live" else "unavailable" }
      error := none }

/-! ### Claims C4, C5, C9 -/

/-- C4: when the guard evaluation raises (any read exception escaping the
body), `get_guards` returns — rather than propagates — the fixed fallback
snapshot: status "passing", 5-minute liquidation count 0, and every
`data_sources` metric marked "fallback". -/
theorem c4_fallback (ts : Nat) (e : String) :
    (get_guards ts (.error e)).status = "passing" ∧
    (get_guards ts (.error e)).liq_events_5m = 0 ∧
    (get_guards ts (.error e)).data_sources =
      { book := "fallback", funding := "fallback",
        liquidations := "fallback" } ∧
    (get_guards ts (.error e)).warnings = [] :=
  ⟨rfl, rfl, rfl, rfl⟩

/-- C5: with both book and funding data present, liquidation count > 10
forces status "breach" regardless of the other guards; spread > 10 bps as
the only triggered guard yields "warning"; and the warnings list holds
exactly one reason per triggered threshold in the fixed order
spread, depth, funding, liquidations. -/
theorem c5_status_and_warnings (b : BookData) (f : FundingData)
    (liq : Nat) :
    (liq > 10 → (evalGuards (some b) (some f) liq).1 = "breach") ∧
    (b.spread_bps > 10 →
      ¬(b.depth_10bps_bid_usd < 50000 ∨ b.depth_10bps_ask_usd < 50000) →
      ¬(|f.funding_apr| > 300) → ¬(liq > 10) →
      (evalGuards (some b) (some f) liq).1 = "warning") ∧
    ((evalGuards (some b) (some f) liq).2 =
      (if b.spread_bps > 10 then [spreadWarning b.spread_bps] else []) ++
      (if b.depth_10bps_bid_usd < 50000 ∨ b.depth_10bps_ask_usd < 50000
       then [depthWarning b.depth_10bps_bid_usd b.depth_10bps_ask_usd]
       else []) ++
      (if |f.funding_apr| > 300 then [fundingWarning f.funding_apr]
       else []) ++
      (if liq > 10 then [liqWarning liq] else [])) := by
  unfold evalGuards
  refine ⟨fun h => by simp [h], fun hs hd hf hl => ?_, ?_⟩
  · simp [hs, hd, hf, hl]
  · by_cases h1 : b.spread_bps > 10 <;>
    by_cases h2 : b.depth_10bps_bid_usd < 50000 ∨
      b.depth_10bps_ask_usd < 50000 <;>
    by_cases h3 : |f.funding_apr| > 300 <;>
    by_cases h4 : liq > 10 <;>
    simp [h1, h2, h3, h4]

/-- Witness for `c5_status_and_warnings`: a concrete breach (12
liquidations with healthy book and funding) and a concrete spread-only
warning (spread 20 bps, everything else within thresholds). -/
theorem c5_status_and_warnings_witness :
    (evalGuards
      (some { spread_bps := 5, depth_10bps_bid_usd := 100000,
              depth_10bps_ask_usd := 100000 })
      (some { funding_apr := 50, oi_notional := 1000000 }) 12).1 =
        "breach" ∧
    (evalGuards
      (some { spread_bps := 20, depth_10bps_bid_usd := 100000,
              depth_10bps_ask_usd := 100000 })
      (some { funding_apr := 50, oi_notional := 1000000 }) 3).1 =
        "warning" ∧
    (evalGuards
      (some { spread_bps := 20, depth_10bps_bid_usd := 100000,
              depth_10bps_ask_usd := 100000 })
      (some { funding_apr := 50, oi_notional := 1000000 }) 3).2 =
        [spreadWarning 20] := by
  refine ⟨(c5_status_and_warnings _ _ 12).1 (by decide), ?_, ?_⟩
  · exact (c5_status_and_warnings _ _ 3).2.1 (by decide) (by decide)
      (by decide) (by decide)
  · have h := (c5_status_and_warnings
      { spread_bps := 20, depth_10bps_bid_usd := 100000,
        depth_10bps_ask_usd := 100000 }
      { funding_apr := 50, oi_notional := 1000000 } 3).2.2
    rw [h]
    norm_num

/-- C9: when the liquidation stream read fails, `count_recent` swallows the
exception and returns 0, and `get_guards` then reports `liq_events_5m = 0`
with `data_sources.liquidations = "live"` — byte-for-byte the same response
as for a genuinely quiet market (an empty stream), so the provenance field
cannot distinguish a read failure from no liquidations. -/
theorem c9_liq_failure_looks_live (e : String) (ts : Nat)
    (book : Option BookData) (funding : Option FundingData) :
    count_recent (.error e) = 0 ∧
    (get_guards ts
      (.ok (book, funding, count_recent (.error e)))).liq_events_5m = 0 ∧
    (get_guards ts
      (.ok (book, funding,
        count_recent (.error e)))).data_sources.liquidations = "live" ∧
    get_guards ts (.ok (book, funding, count_recent (.error e))) =
      get_guards ts (.ok (book, funding, count_recent (.ok []))) :=
  ⟨rfl, rfl, rfl, rfl⟩

end Guards

namespace Basis

/-! ## Embedding of src/backend/services/basis.py

`get_basis` is modelled as a pure function of the module-level cache, the
clock (seconds) and the two latest venue prices; it returns the basis and
the updated cache.  Python truthiness of a float (`if not usdt_price`) makes
both `None` and `0.0` count as missing. -/

/-- Python float truthiness on an optional price: `None` and `0.0` are
falsy, so both make the price count as unavailable. -/
def truthy (o : Option ℚ) : Option ℚ :=
  match o with
  | none => none
  | some x => if x = 0 then none else some x

/-- `BasisCalculator.calculate_basis`:
`((px_usdc - px_usdt) / px_usdt) * 10000`, `None` when either latest price
is unavailable (falsy). -/
def calculate_basis (usdt_price usdc_price : Option ℚ) : Option ℚ :=
  match truthy usdt_price, truthy usdc_price with
  | some pt, some pc => some (((pc - pt) / pt) * 10000)
  | _, _ => none

/-- The module-level cache `_basis_cache` / `_basis_cache_time`
(time in seconds). -/
structure BasisCache where
  value : Option ℚ
  time : Option ℤ

def CACHE_TTL : ℤ := 5

/-- `get_basis`: serve a fresh cached value; else recompute; on
recomputation failure fall back to the (stale) cached value if any,
logging a warning, and to `0.0` only with no cache.  Returns the basis
and the updated cache state. -/
def get_basis (use_cache : Bool) (now : ℤ) (c : BasisCache)
    (usdt_price usdc_price : Option ℚ) : ℚ × BasisCache :=
  if use_cache ∧ c.value.isSome ∧ c.time.isSome ∧
      now - c.time.getD 0 < CACHE_TTL then
    (c.value.getD 0, c)
  else
    match calculate_basis usdt_price usdc_price with
    | some basis_bps => (basis_bps, { value := some basis_bps,
                                      time := some now })
    | none =>
      match c.value with
      | some v => (v, c)
      | none => (0, c)

/-! ### Claim C6 -/

/-- C6 counterexample: with a cached value 5 from second 0 and both prices
unavailable at second 100 (far past the 5 s TTL), `get_basis` returns the
stale cached 5 — not 0 — and leaves the cache unchanged; nothing in the
return signals staleness.  This refutes the claim that unavailable prices
always yield 0 with a stale flag. -/
theorem c6_counterexample :
    get_basis true 100 { value := some 5, time := some 0 } none none =
      (5, { value := some 5, time := some 0 }) ∧ (5 : ℚ) ≠ 0 := by
  constructor
  · rfl
  · decide

/-- C6 (amended): when either venue's latest price is unavailable (falsy),
`get_basis` returns the previously cached successful value if one exists —
silently, no matter how stale, with no stale flag recorded anywhere — and
returns 0 only when no value was ever cached. -/
theorem c6_unavailable_uses_cache (use_cache : Bool) (now : ℤ)
    (c : BasisCache) (usdt_price usdc_price : Option ℚ)
    (h : truthy usdt_price = none ∨ truthy usdc_price = none) :
    (c.value = none →
      (get_basis use_cache now c usdt_price usdc_price).1 = 0) ∧
    (∀ v, c.value = some v →
      (get_basis use_cache now c usdt_price usdc_price).1 = v) := by
  have hcalc : calculate_basis usdt_price usdc_price = none := by
    unfold calculate_basis
    rcases h with h | h
    · rw [h]
    · rw [h]
      cases truthy usdt_price <;> rfl
  constructor
  · intro hv
    unfold get_basis
    rw [hcalc, hv]
    simp [hv]
  · intro v hv
    unfold get_basis
    rw [hcalc, hv]
    by_cases hfresh : use_cache ∧ (Option.some v).isSome ∧
        c.time.isSome ∧ now - c.time.getD 0 < CACHE_TTL
    · rw [if_pos hfresh]
      rfl
    · rw [if_neg hfresh]

/-- Witness for `c6_unavailable_uses_cache`: both prices missing; an empty
cache yields 0, a cache holding 7 yields 7. -/
theorem c6_unavailable_uses_cache_witness :
    (get_basis true 100 { value := none, time := none } none none).1 = 0 ∧
    (get_basis true 100 { value := some 7, time := some 0 }
      none none).1 = 7 := by
  constructor
  · exact (c6_unavailable_uses_cache true 100
      { value := none, time := none } none none (Or.inl rfl)).1 rfl
  · exact (c6_unavailable_uses_cache true 100
      { value := some 7, time := some 0 } none none (Or.inl rfl)).2 7 rfl

end Basis

namespace Webhooks

/-! ## Embedding of src/backend/routers/webhooks.py

The HMAC-SHA256 hex digest is an external primitive and enters as an
explicit function argument `hmacHex secret payload`; JSON parsing is
abstracted: `parsed = none` models an invalid body.  The route is modelled
up to its routing decision plus the list of events that get processed and
published to the on-chain topic. -/

def DRIFT_PROGRAM_ID : String := "dRiftyHA39MWEi3m9aunc5MzRF1JYuBsbn6VPcn33UH"

/-- A webhook event: its transaction signature (used as event id) and the
accounts appearing in its `accountData`. -/
structure WebhookEvent where
  signature : String
  accountData : List String
  deriving DecidableEq

/-- `HeliusWebhookHandler.verify_signature`: with no configured secret it
returns True (insecure dev mode, logging the explicit warning); otherwise
it compares the HMAC-SHA256 hex digest of the payload against the header. -/
def verify_signature (hmacHex : String → String → String) (secret : String)
    (payload : String) (signature : String) : Bool :=
  if secret = "" then true
  else hmacHex secret payload == signature

/-- `filter_drift_events`: keep events mentioning the Drift program id. -/
def filter_drift_events (events : List WebhookEvent) : List WebhookEvent :=
  events.filter (fun e => e.accountData.contains DRIFT_PROGRAM_ID)

/-- `process_events`: skip events without a signature, skip ids already in
the dedup set, publish the rest (returned as the list of published events),
threading the dedup set. -/
def process_events (dedup0 : List String) (events : List WebhookEvent) :
    Nat × List WebhookEvent × List String :=
  events.foldl
    (fun acc e =>
      if e.signature = "" then acc
      else if acc.2.2.contains e.signature then acc
      else (acc.1 + 1, acc.2.1 ++ [e], acc.2.2 ++ [e.signature]))
    (0, [], dedup0)

/-- Outcome of the `/api/webhooks/helius` route. -/
inductive WebhookResponse where
  | unauthorized
  | badRequest
  | okNoDrift
  | ok (processed : Nat) (total : Nat) (drift_events : Nat)
  deriving DecidableEq

/-- Result of one request: the HTTP response, the events published to the
on-chain topic, and whether signature verification was invoked at all
(the insecure-mode warning can only be logged inside `verify_signature`). -/
structure RouteResult where
  response : WebhookResponse
  published : List WebhookEvent
  verify_called : Bool
  deriving DecidableEq

/-- Body of the route after the signature gate. -/
def handle_payload (dedup : List String)
    (parsed : Option (List WebhookEvent)) (verify_called : Bool) :
    RouteResult :=
  match parsed with
  | none => { response := .badRequest, published := [],
              verify_called := verify_called }
  | some events =>
    let drift_events := filter_drift_events events
    if drift_events = [] then
      { response := .okNoDrift, published := [],
        verify_called := verify_called }
    else
      let r := process_events dedup drift_events
      { response := .ok r.1 events.length drift_events.length,
        published := r.2.1, verify_called := verify_called }

/-- `helius_webhook`: the signature is verified only when the
`X-Helius-Signature` header is present; a missing header skips the gate
entirely and the payload is processed. -/
def helius_webhook (hmacHex : String → String → String) (secret : String)
    (dedup : List String) (body : String)
    (parsed : Option (List WebhookEvent))
    (x_helius_signature : Option String) : RouteResult :=
  match x_helius_signature with
  | some sig =>
    if verify_signature hmacHex secret body sig then
      handle_payload dedup parsed true
    else
      { response := .unauthorized, published := [], verify_called := true }
  | none => handle_payload dedup parsed false

/-! ### Claim C3 -/

/-- A concrete Drift event. -/
def driftEvent : WebhookEvent :=
  { signature := "sig1", accountData := [DRIFT_PROGRAM_ID] }

/-- C3 (code bug): a request WITHOUT a signature header bypasses
verification no matter what secret is configured: with secret "topsecret"
set and no header, the payload is parsed, processed and published (response
`ok 1 1 1`), signature verification is never invoked — the request is not
rejected, contradicting the claim/spec; and symmetrically in insecure mode
(no secret) the unsigned request is accepted without `verify_signature`
ever running, so the claimed insecure-mode warning is not logged either. -/
theorem c3_unsigned_bypasses_verification
    (hmacHex : String → String → String) :
    helius_webhook hmacHex "topsecret" [] "rawbody" (some [driftEvent])
      none =
      { response := .ok 1 1 1, published := [driftEvent],
        verify_called := false } ∧
    helius_webhook hmacHex "" [] "rawbody" (some [driftEvent]) none =
      { response := .ok 1 1 1, published := [driftEvent],
        verify_called := false } := by
  exact ⟨rfl, rfl⟩

end Webhooks

namespace DriftLiqMap

/-! ## Embedding of src/workers/onchain/drift_liq_map.py

`decode_position_data` is an explicit placeholder in the source (it returns
mock data pending the Drift SDK), so `process_account` takes the decoded
position as an argument; the claims quantify over every decoded position. -/

/-- Decoded position state. -/
structure Position where
  market_index : Nat
  position_size : ℚ
  avg_entry_price : ℚ
  collateral_usd : ℚ

/-- Emitted estimate. -/
structure LiquidationEstimate where
  account : String
  market_index : Nat
  position_size : ℚ
  avg_entry_price : ℚ
  est_liq_px : ℚ
  collateral_usd : ℚ
  leverage : ℚ
  health : ℚ
  distance_bps : ℚ
  updated_at : Nat

/-- `calculate_liquidation_price`: returns (liq_price, leverage, health).
Zero position short-circuits to (0, 0, 1); a zero denominator in the
margin equation yields liq_price 0; leverage and health guard their own
divisions. -/
def calculate_liquidation_price (position_size avg_entry_price
    collateral_usd oracle_price maintenance_margin_ratio : ℚ) :
    ℚ × ℚ × ℚ :=
  if position_size = 0 then (0, 0, 1)
  else
    let position_notional := |position_size| * oracle_price
    let leverage := if collateral_usd > 0
                    then position_notional / collateral_usd else 0
    let q := position_size
    let abs_q := |q|
    let numerator := collateral_usd - q * avg_entry_price
    let denominator := maintenance_margin_ratio * abs_q - q
    let liq_price := if denominator = 0 then 0 else numerator / denominator
    let unrealized_pnl := q * (oracle_price - avg_entry_price)
    let total_collateral := collateral_usd + unrealized_pnl
    let required_collateral := maintenance_margin_ratio * abs_q * oracle_price
    let health := if required_collateral > 0
                  then total_collateral / required_collateral else 1
    (liq_price, leverage, health)

/-- Default maintenance margin ratio for SOL-PERP (3%). -/
def MMR : ℚ := 3 / 100

/-- `process_account`: no estimate for a missing or flat position, no
estimate when the computed liquidation price is non-positive; otherwise the
full estimate with its signed distance in bps. -/
def process_account (account_pubkey : String) (position : Option Position)
    (oracle_price : ℚ) (now : Nat) : Option LiquidationEstimate :=
  match position with
  | none => none
  | some pos =>
    if pos.position_size = 0 then none
    else
      let r := calculate_liquidation_price pos.position_size
        pos.avg_entry_price pos.collateral_usd oracle_price MMR
      let liq_price := r.1
      if liq_price ≤ 0 then none
      else
        let distance_bps := ((liq_price - oracle_price) / oracle_price) *
          10000
        some { account := account_pubkey
               market_index := pos.market_index
               position_size := pos.position_size
               avg_entry_price := pos.avg_entry_price
               est_liq_px := liq_price
               collateral_usd := pos.collateral_usd
               leverage := r.2.1
               health := r.2.2
               distance_bps := distance_bps
               updated_at := now }

/-! ### Claim C7 -/

/-- C7: whenever the denominator m·|q| − q is nonzero, the computed
liquidation price is exactly (C − q·avg) / (m·|q| − q); and any account
whose computed liquidation price is non-positive (the zero-denominator case
computes 0, hence is included) yields no emitted estimate —
`process_account` returns `none` rather than sentinel values. -/
theorem c7_liq_price_formula_and_discard :
    (∀ q avg C p m : ℚ, m * |q| - q ≠ 0 →
      (calculate_liquidation_price q avg C p m).1 =
        (C - q * avg) / (m * |q| - q)) ∧
    (∀ (acct : String) (pos : Position) (p : ℚ) (now : Nat),
      (calculate_liquidation_price pos.position_size pos.avg_entry_price
        pos.collateral_usd p MMR).1 ≤ 0 →
      process_account acct (some pos) p now = none) := by
  constructor
  · intro q avg C p m hden
    have hq : q ≠ 0 := by
      intro h
      apply hden
      rw [h]
      simp
    unfold calculate_liquidation_price
    rw [if_neg hq]
    simp only
    rw [if_neg hden]
  · intro acct pos p now hle
    simp only [process_account]
    by_cases hsz : pos.position_size = 0
    · rw [if_pos hsz]
    · rw [if_neg hsz]
      exact if_pos hle

/-- Witness for `c7_liq_price_formula_and_discard`, at the spec's own
test vector q=10, avg=180, C=5000, p=190, m=3/100: the denominator is
3/100·10 − 10 = −97/10 ≠ 0, the formula gives (5000 − 1800)/(−97/10) =
−32000/97 < 0, and the estimate is discarded — `process_account` returns
`none`. -/
theorem c7_liq_price_formula_and_discard_witness :
    (calculate_liquidation_price 10 180 5000 190 (3/100)).1 =
      (5000 - 10 * 180) / ((3/100) * |(10 : ℚ)| - 10) ∧
    process_account "acct"
      (some { market_index := 0, position_size := 10,
              avg_entry_price := 180, collateral_usd := 5000 })
      190 0 = none := by
  constructor
  · exact c7_liq_price_formula_and_discard.1 10 180 5000 190 (3/100)
      (by norm_num)
  · apply c7_liq_price_formula_and_discard.2
    norm_num [calculate_liquidation_price, MMR]

end DriftLiqMap

namespace BybitOIFunding

/-! ## Embedding of src/workers/market_data/bybit_oi_funding.py

The three REST fetches run concurrently with `return_exceptions=True`, so
each result is either an exception (`Except.error`), no data (`.ok none`),
or data.  `poll_once` is modelled as the function from the three results to
the snapshot published this cycle (`none` = nothing published). -/

structure OIData where
  oi_value : ℚ
  timestamp : Nat

structure FundingData where
  funding_rate_8h : ℚ
  funding_apr : ℚ
  funding_rate_timestamp : Nat

structure TickerData where
  price : ℚ
  next_funding_time : Nat

structure FundingSnapshot where
  symbol : String
  timestamp : Nat
  oi_notional : ℚ
  oi_value : ℚ
  funding_rate_8h : ℚ
  funding_apr : ℚ
  next_funding_time : Nat

def SYMBOL : String := "SOLUSDT"

/-- Annualized funding as computed in `fetch_funding_rate`:
8-hour rate × 3 × 365 × 100. -/
def funding_apr_of_rate (funding_rate_8h : ℚ) : ℚ :=
  funding_rate_8h * 3 * 365 * 100

/-- Whether a fetch result counts as failed in `poll_once` (an exception
from `gather`, or a falsy/missing payload). -/
def fetch_failed {α : Type} (r : Except String (Option α)) : Bool :=
  match r with
  | .ok (some _) => false
  | _ => true

/-- `poll_once`: any failed fetch skips the whole cycle; otherwise one
snapshot with `oi_notional = oi_value * price` is published. -/
def poll_once (ts : Nat) (oi : Except String (Option OIData))
    (funding : Except String (Option FundingData))
    (ticker : Except String (Option TickerData)) :
    Option FundingSnapshot :=
  match oi with
  | .error _ => none
  | .ok oiOpt =>
    match funding with
    | .error _ => none
    | .ok fOpt =>
      match ticker with
      | .error _ => none
      | .ok tOpt =>
        match oiOpt, fOpt, tOpt with
        | some o, some f, some t =>
          some { symbol := SYMBOL
                 timestamp := ts
                 oi_notional := o.oi_value * t.price
                 oi_value := o.oi_value
                 funding_rate_8h := f.funding_rate_8h
                 funding_apr := f.funding_apr
                 next_funding_time := t.next_funding_time }
        | _, _, _ => none

/-! ### Claim C8 -/

/-- C8: if any of the three concurrent fetches fails or returns no data,
`poll_once` publishes nothing at all for that cycle — never a partial
snapshot; and when all three succeed the published snapshot has
`oi_notional = oi_value × last price`. -/
theorem c8_no_partial_snapshot (ts : Nat)
    (oi : Except String (Option OIData))
    (funding : Except String (Option FundingData))
    (ticker : Except String (Option TickerData)) :
    ((fetch_failed oi ∨ fetch_failed funding ∨ fetch_failed ticker) →
      poll_once ts oi funding ticker = none) ∧
    (∀ o f t, oi = .ok (some o) → funding = .ok (some f) →
      ticker = .ok (some t) →
      poll_once ts oi funding ticker =
        some { symbol := SYMBOL, timestamp := ts,
               oi_notional := o.oi_value * t.price, oi_value := o.oi_value,
               funding_rate_8h := f.funding_rate_8h,
               funding_apr := f.funding_apr,
               next_funding_time := t.next_funding_time }) := by
  constructor
  · intro h
    unfold poll_once
    rcases oi with e | oiOpt
    · rfl
    · rcases funding with e | fOpt
      · rfl
      · rcases ticker with e | tOpt
        · rfl
        · rcases oiOpt with _ | o
          · rfl
          · rcases fOpt with _ | f
            · rfl
            · rcases tOpt with _ | t
              · rfl
              · simp [fetch_failed] at h
  · intro o f t ho hf ht
    subst ho
    subst hf
    subst ht
    rfl

/-- Witness for `c8_no_partial_snapshot`: a cycle with a failed OI fetch
publishes nothing, and a fully successful cycle publishes the snapshot with
oi notional 2 × 10 = 20. -/
theorem c8_no_partial_snapshot_witness :
    poll_once 0 (.error "timeout")
      (.ok (some { funding_rate_8h := 1/1000,
                   funding_apr := funding_apr_of_rate (1/1000),
                   funding_rate_timestamp := 0 }))
      (.ok (some { price := 10, next_funding_time := 0 })) = none ∧
    (poll_once 0 (.ok (some { oi_value := 2, timestamp := 0 }))
      (.ok (some { funding_rate_8h := 1/1000,
                   funding_apr := funding_apr_of_rate (1/1000),
                   funding_rate_timestamp := 0 }))
      (.ok (some { price := 10,
                   next_funding_time := 0 }))).map
        FundingSnapshot.oi_notional = some (2 * 10) := by
  constructor
  · exact (c8_no_partial_snapshot 0 _ _ _).1 (Or.inl rfl)
  · rw [(c8_no_partial_snapshot 0 _ _ _).2 _ _ _ rfl rfl rfl]
    rfl

end BybitOIFunding

end AT1000
